import Mathlib

/-!
Shallow embedding of the VHS mockup scripts
(scripts/vhs/build_black_case_front_template.py,
scripts/vhs/inspect_black_case_psb.py,
scripts/vhs/prototype_black_case_front.py).

Images are modelled as width, height and a total pixel lookup function over
RGBA channels carried as natural numbers; real PIL channels are bytes in
0..255, and theorems that need that bound state it as a hypothesis.  The
integer pixel arithmetic of the PIL primitives the scripts call
(alpha_composite, paste with a mask, ImageChops.screen, ImageChops.multiply,
Image.composite, Image.blend, point, putalpha) is reproduced from the PIL
C sources; Python floats (layer opacities and blend factors) are modelled by
exact rationals.
-/

set_option autoImplicit false

/-- RGBA pixel; real PIL channel values are bytes in 0..255. -/
structure RGBA where
  r : Nat
  g : Nat
  b : Nat
  a : Nat
deriving DecidableEq

/-- Fully transparent black pixel, the fill of a fresh RGBA canvas. -/
def transparent : RGBA := ⟨0, 0, 0, 0⟩

/-- RGBA image: width, height and a pixel lookup function indexed from the
top left corner. -/
structure Img where
  width : Nat
  height : Nat
  pix : Nat → Nat → RGBA

/-- Validity of a pixel: every channel is a byte. -/
def RGBA.valid (p : RGBA) : Prop := p.r ≤ 255 ∧ p.g ≤ 255 ∧ p.b ≤ 255 ∧ p.a ≤ 255

instance (p : RGBA) : Decidable p.valid := by
  unfold RGBA.valid
  infer_instance

/-- PIL macro SHIFTFORDIV255: fast approximate division by 255. -/
def shiftForDiv255 (v : Nat) : Nat := (v / 256 + v) / 256

/-- PIL macro MULDIV255: rounded x * y / 255 on byte values. -/
def muldiv255 (x y : Nat) : Nat := shiftForDiv255 (x * y + 128)

/-- Per channel screen operator of ImageChops.screen in the PIL C sources. -/
def chopScreen (x y : Nat) : Nat := 255 - (255 - x) * (255 - y) / 255

/-- Per channel multiply operator of ImageChops.multiply. -/
def chopMultiply (x y : Nat) : Nat := x * y / 255

/-- Masked blend used by Image.paste with a mask and by Image.composite:
keeps oldv where the mask m is 0 and takes newv where m is 255. -/
def maskBlend (oldv newv m : Nat) : Nat := muldiv255 oldv (255 - m) + muldiv255 newv m

/-- Porter-Duff source over on one pixel, following the integer arithmetic of
the PIL AlphaComposite.c implementation with 7 precision bits; a source pixel
with alpha 0 leaves the destination pixel untouched. -/
def alphaCompositePix (dst src : RGBA) : RGBA :=
  if src.a = 0 then dst
  else
    let blend := dst.a * (255 - src.a)
    let outa255 := src.a * 255 + blend
    let coef1 := src.a * 255 * 255 * 128 / outa255
    let coef2 := 255 * 128 - coef1
    { r := shiftForDiv255 (src.r * coef1 + dst.r * coef2 + 128 * 128) / 128
    , g := shiftForDiv255 (src.g * coef1 + dst.g * coef2 + 128 * 128) / 128
    , b := shiftForDiv255 (src.b * coef1 + dst.b * coef2 + 128 * 128) / 128
    , a := shiftForDiv255 (outa255 + 128) }

/-- Image.alpha_composite with destination offset (dx, dy): pixels outside
the overlay region keep the base value, and the result always has the
dimensions of the base. -/
def Img.alphaCompositeAt (base ov : Img) (dx dy : Nat) : Img :=
  { width := base.width
  , height := base.height
  , pix := fun x y =>
      if dx ≤ x ∧ x < dx + ov.width ∧ dy ≤ y ∧ y < dy + ov.height then
        alphaCompositePix (base.pix x y) (ov.pix (x - dx) (y - dy))
      else base.pix x y }

/-- Image.convert RGB drops the alpha band; modelled as an RGBA image whose
alpha is forced to the opaque value 255. -/
def Img.convertRGB (im : Img) : Img :=
  { width := im.width
  , height := im.height
  , pix := fun x y =>
      let p := im.pix x y
      { r := p.r, g := p.g, b := p.b, a := 255 } }

/-- Image.getchannel A: the alpha band as a single channel lookup. -/
def Img.getA (im : Img) : Nat → Nat → Nat := fun x y => (im.pix x y).a

/-- ImageChops.screen applied to the colour channels of two images. -/
def chopsScreenImg (im1 im2 : Img) : Img :=
  { width := im1.width
  , height := im1.height
  , pix := fun x y =>
      let p := im1.pix x y
      let q := im2.pix x y
      { r := chopScreen p.r q.r, g := chopScreen p.g q.g, b := chopScreen p.b q.b, a := 255 } }

/-- ImageChops.multiply applied to the colour channels of two images. -/
def chopsMultiplyImg (im1 im2 : Img) : Img :=
  { width := im1.width
  , height := im1.height
  , pix := fun x y =>
      let p := im1.pix x y
      let q := im2.pix x y
      { r := chopMultiply p.r q.r, g := chopMultiply p.g q.g, b := chopMultiply p.b q.b, a := 255 } }

/-- Image.composite im1 im2 mask: a copy of im2 with im1 pasted over it
through the mask, so each channel moves toward im1 where the mask is high. -/
def imageComposite (im1 im2 : Img) (mask : Nat → Nat → Nat) : Img :=
  { width := im2.width
  , height := im2.height
  , pix := fun x y =>
      let p := im2.pix x y
      let q := im1.pix x y
      let m := mask x y
      { r := maskBlend p.r q.r m, g := maskBlend p.g q.g m, b := maskBlend p.b q.b m, a := 255 } }

/-- Image.merge RGBA from the colour channels of one image and a separately
supplied alpha channel. -/
def mergeRGBA (rgb : Img) (alphaCh : Nat → Nat → Nat) : Img :=
  { width := rgb.width
  , height := rgb.height
  , pix := fun x y =>
      let p := rgb.pix x y
      { r := p.r, g := p.g, b := p.b, a := alphaCh x y } }

/-- Image.blend linear interpolation of every channel with a rational factor
modelling the Python float factor. -/
def imageBlend (im1 im2 : Img) (t : Rat) : Img :=
  { width := im1.width
  , height := im1.height
  , pix := fun x y =>
      let p := im1.pix x y
      let q := im2.pix x y
      let ch := fun (u v : Nat) => (Rat.floor ((u : Rat) + t * ((v : Rat) - (u : Rat)))).toNat
      { r := ch p.r q.r, g := ch p.g q.g, b := ch p.b q.b, a := ch p.a q.a } }

/-- Image.paste of src onto base at offset (dx, dy) with the pasted image
itself as the RGBA mask: inside the paste region, clipped to the base, every
channel is mask-blended through the alpha band of src; elsewhere the base is
untouched. -/
def Img.pasteMaskRGBA (base src : Img) (dx dy : Nat) : Img :=
  { width := base.width
  , height := base.height
  , pix := fun x y =>
      if x < base.width ∧ y < base.height ∧ dx ≤ x ∧ x < dx + src.width ∧ dy ≤ y ∧ y < dy + src.height then
        let s := src.pix (x - dx) (y - dy)
        let d := base.pix x y
        { r := maskBlend d.r s.r s.a
        , g := maskBlend d.g s.g s.a
        , b := maskBlend d.b s.b s.a
        , a := maskBlend d.a s.a s.a }
      else base.pix x y }

/-- Image.resize to exactly (w, h).  PIL guarantees the output dimensions;
the LANCZOS floating point resampling kernel is abstracted here by a nearest
index content map, which no claim inspects. -/
def Img.resizeTo (im : Img) (w h : Nat) : Img :=
  { width := w
  , height := h
  , pix := fun x y => im.pix (x * im.width / w) (y * im.height / h) }

/-- Layer node of a PSD document as exposed by psd-tools: name, kind string,
bounding box corners (x1, y1, x2, y2) in document pixel coordinates with
x1 ≤ x2 and y1 ≤ y2, visibility flag, group flag, children (consulted only
when the group flag is set, as in the scripts), and the raster returned by
layer.composite, which is the local composite clipped to the bounding box. -/
inductive Layer where
  | mk : String → String → Nat × Nat × Nat × Nat → Bool → Bool → List Layer → Img → Layer

/-- Name of a layer. -/
def Layer.name : Layer → String
  | .mk n _ _ _ _ _ _ => n

/-- Kind string of a layer, such as smartobject, pixel or group. -/
def Layer.kind : Layer → String
  | .mk _ k _ _ _ _ _ => k

/-- Bounding box corners (x1, y1, x2, y2) of a layer. -/
def Layer.bbox : Layer → Nat × Nat × Nat × Nat
  | .mk _ _ b _ _ _ _ => b

/-- Visibility flag of a layer. -/
def Layer.visible : Layer → Bool
  | .mk _ _ _ v _ _ _ => v

/-- Group flag of a layer, the is_group predicate of psd-tools. -/
def Layer.isGroupLayer : Layer → Bool
  | .mk _ _ _ _ g _ _ => g

/-- Children of a layer group. -/
def Layer.children : Layer → List Layer
  | .mk _ _ _ _ _ ch _ => ch

/-- Raster returned by layer.composite, clipped to the bounding box. -/
def Layer.compositeImg : Layer → Img
  | .mk _ _ _ _ _ _ ci => ci

/-- Loaded PSD document: canvas width and height plus the ordered top level
layers. -/
structure PSDImage where
  width : Nat
  height : Nat
  layers : List Layer

/-- Blank fully transparent RGBA canvas of the given size, as produced by
Image.new RGBA with fill (0, 0, 0, 0). -/
def blankCanvas (w h : Nat) : Img := { width := w, height := h, pix := fun _ _ => transparent }

/-- Python substring helper: does the second list occur at the head of the
first one. -/
def startsWithChars : List Char → List Char → Bool
  | _, [] => true
  | [], _ :: _ => false
  | c :: cs, d :: ds => c == d && startsWithChars cs ds

/-- Python substring helper: does sub occur anywhere inside hay. -/
def hasSubChars (hay sub : List Char) : Bool :=
  startsWithChars hay sub ||
    match hay with
    | [] => false
    | _ :: rest => hasSubChars rest sub

/-- Python containment test sub in s on strings. -/
def strContains (s sub : String) : Bool := hasSubChars s.data sub.data

/-- Python str.lower, mapping each character to lower case. -/
def lowerStr (s : String) : String := ⟨s.data.map Char.toLower⟩

namespace BuildTemplate

/-- Alias table LAYER_PATHS of build_black_case_front_template.py, in source
order. -/
def LAYER_PATHS : List (String × String) :=
  [ ("shadow", "Shadows/Facing Down (Alt)")
  , ("case", "Black VHS Case/Front Case Mokcup")
  , ("design", "Black VHS Case/**Your Design Here [Double-Click]** (Sleeve Insert)")
  , ("plastic", "Textures/Texture/Plastic")
  , ("scratches", "Textures/Texture/Scratches + Reflection [Adjust]")
  ]

/-- iter_layers of the build script: depth-first traversal yielding each
layer with its slash-joined path; a group is yielded before its children and
recursed into only when its group flag is set. -/
def iter_layers : List Layer → String → List (String × Layer)
  | [], _ => []
  | Layer.mk n k b v g ch ci :: rest, path =>
      let current := if path = "" then n else path ++ "/" ++ n
      (current, Layer.mk n k b v g ch ci) ::
        ((if g then iter_layers ch current else []) ++ iter_layers rest path)

/-- Path dictionary built by find_layers from the traversal; a later
occurrence of the same path wins, as in the Python dict comprehension. -/
def byPath (psd : PSDImage) (p : String) : Option Layer :=
  (iter_layers psd.layers "").foldl (fun acc pl => if pl.1 = p then some pl.2 else acc) none

/-- Resolution loop of find_layers over an alias table: each alias is looked
up in the path dictionary in table order, and the first absent path raises a
RuntimeError naming that path. -/
def find_layers (psd : PSDImage) : List (String × String) → Except String (List (String × Layer))
  | [] => .ok []
  | (al, path) :: rest =>
    match byPath psd path with
    | none => .error ("Could not find required layer path: " ++ path)
    | some l =>
      match find_layers psd rest with
      | .error e => .error e
      | .ok r => .ok ((al, l) :: r)

end BuildTemplate

/-- to_canvas of the build script: a fresh transparent canvas of the document
size with the local composite of the layer alpha-composited at the top left
corner (x1, y1) of the layer bounding box. -/
def to_canvas (psd : PSDImage) (layer : Layer) : Img :=
  let canvas := blankCanvas psd.width psd.height
  let composite := layer.compositeImg
  canvas.alphaCompositeAt composite layer.bbox.1 layer.bbox.2.1

/-- apply_alpha_scale of the build script: a scale of at least one returns
the image unchanged, otherwise every alpha byte value is replaced by the
Python int truncation of value times scale; the float scale is modelled by an
exact rational. -/
def apply_alpha_scale (image : Img) (scale : Rat) : Img :=
  if 1 ≤ scale then image
  else
    { image with pix := fun x y =>
        let p := image.pix x y
        { p with a := (Rat.floor ((p.a : Rat) * scale)).toNat } }

/-- screen_blend of the build script, line by line: convert both images to
RGB, screen them with ImageChops.screen, mask the screened result over the
base RGB through the overlay alpha channel with Image.composite, and merge
the result with the original base alpha channel. -/
def screen_blend (base overlay : Img) : Img :=
  let base_rgb := base.convertRGB
  let overlay_rgb := overlay.convertRGB
  let screened := chopsScreenImg base_rgb overlay_rgb
  let alphaCh := overlay.getA
  let blended_rgb := imageComposite screened base_rgb alphaCh
  mergeRGBA blended_rgb base.getA

/-- compose_placeholder_cover of the build script; the Lean name caseImg
avoids the Lean keyword spelled like the Python variable named for the case
layer. -/
def compose_placeholder_cover (shadow caseImg design plastic scratches : Img) : Img :=
  let canvas := blankCanvas caseImg.width caseImg.height
  let canvas := canvas.alphaCompositeAt (apply_alpha_scale shadow (1 / 2)) 0 0
  let canvas := canvas.alphaCompositeAt caseImg 0 0
  let canvas := canvas.alphaCompositeAt design 0 0
  let canvas := screen_blend canvas plastic
  canvas.alphaCompositeAt (apply_alpha_scale scratches (1 / 2)) 0 0

namespace BuildTemplate

/-- Rectangle in origin plus size form, the poster record written to
front-metadata.json. -/
structure PosterRect where
  left : Nat
  top : Nat
  width : Nat
  height : Nat
deriving DecidableEq

/-- One underlay or overlay entry of the metadata JSON. -/
structure BlendEntry where
  publicPath : String
  blend : String
  opacity : Rat
deriving DecidableEq

/-- front-metadata.json record written by the build script. -/
structure Metadata where
  sourcePsbName : String
  outputWidth : Nat
  outputHeight : Nat
  poster : PosterRect
  underlays : List BlendEntry
  overlays : List BlendEntry
deriving DecidableEq

/-- Outcome of one run of the build script main: the output file names in
write order, the fatal error message if the run aborted, and the metadata
record when one was written. -/
structure BuildResult where
  written : List String
  errorMsg : Option String
  metadata : Option Metadata

/-- Dictionary accesses of main on the resolved alias map: the five fixed
keys in access order.  After a successful find_layers over LAYER_PATHS all
five are present; the none outcome mirrors the KeyError a Python dict would
raise. -/
def lookupFive (resolved : List (String × Layer)) :
    Option (Layer × Layer × Layer × Layer × Layer) :=
  match List.lookup "shadow" resolved, List.lookup "case" resolved,
        List.lookup "design" resolved, List.lookup "plastic" resolved,
        List.lookup "scratches" resolved with
  | some a, some b, some c, some d, some e => some (a, b, c, d, e)
  | _, _, _, _, _ => none

/-- main of build_black_case_front_template.py after the PSB file has been
opened: resolve the aliases (aborting with no file written when a required
path is missing), rasterize the five layers to canvases, write the five
layer files, compose and write the placeholder cover in PNG and WEBP form,
and write the metadata JSON with the design bounding box converted to origin
plus size form. -/
def buildMain (psbName : String) (psd : PSDImage) : BuildResult :=
  match find_layers psd LAYER_PATHS with
  | .error e => { written := [], errorMsg := some e, metadata := none }
  | .ok resolved =>
    match lookupFive resolved with
    | some (shadowL, caseL, designL, plasticL, scratchesL) =>
      let shadow := to_canvas psd shadowL
      let caseI := to_canvas psd caseL
      let design := to_canvas psd designL
      let plastic := to_canvas psd plasticL
      let scratches := to_canvas psd scratchesL
      let _cover := compose_placeholder_cover shadow caseI design plastic scratches
      let bb := designL.bbox
      let metadata : Metadata :=
        { sourcePsbName := psbName
        , outputWidth := psd.width
        , outputHeight := psd.height
        , poster := { left := bb.1, top := bb.2.1, width := bb.2.2.1 - bb.1, height := bb.2.2.2 - bb.2.1 }
        , underlays :=
            [ { publicPath := "/VHS/templates/black-case-front/front-shadow-underlay.png", blend := "over", opacity := 1 / 2 }
            , { publicPath := "/VHS/templates/black-case-front/front-case-underlay.png", blend := "over", opacity := 1 }
            ]
        , overlays :=
            [ { publicPath := "/VHS/templates/black-case-front/front-texture-plastic.png", blend := "screen", opacity := 1 }
            , { publicPath := "/VHS/templates/black-case-front/front-texture-scratches.png", blend := "over", opacity := 1 / 2 }
            ] }
      { written :=
          [ "front-shadow-underlay.png"
          , "front-case-underlay.png"
          , "front-placeholder-design.png"
          , "front-texture-plastic.png"
          , "front-texture-scratches.png"
          , "front-placeholder-cover.png"
          , "front-placeholder-cover.webp"
          , "front-metadata.json"
          ]
      , errorMsg := none
      , metadata := some metadata }
    | none => { written := [], errorMsg := some "KeyError", metadata := none }

end BuildTemplate

namespace Inspect

/-- Keyword list of the inventory walker, in source order. -/
def KEY_TOKENS : List String :=
  ["texture", "shadow", "lighting", "design here", "mockup", "front", "back", "spine"]

/-- Key layer test of the inventory walker: the lowercased layer name
contains at least one keyword. -/
def isKeyName (name : String) : Bool :=
  KEY_TOKENS.any (fun t => strContains (lowerStr name) t)

/-- Info record the walker stores for every layer. -/
structure LayerInfo where
  name : String
  path : String
  kind : String
  bboxX : Nat
  bboxY : Nat
  bboxWidth : Nat
  bboxHeight : Nat
  visible : Bool
deriving DecidableEq

/-- Info record of one layer given the ancestor name list: display path with
separator, kind, bounding box converted to origin plus size, visibility. -/
def infoOf (pathParts : List String) (l : Layer) : LayerInfo :=
  { name := l.name
  , path := String.intercalate " > " (pathParts ++ [l.name])
  , kind := l.kind
  , bboxX := l.bbox.1
  , bboxY := l.bbox.2.1
  , bboxWidth := l.bbox.2.2.1 - l.bbox.1
  , bboxHeight := l.bbox.2.2.2 - l.bbox.2.1
  , visible := l.visible }

/-- All info records of a depth-first walk, each layer before its children. -/
def allInfos : List Layer → List String → List LayerInfo
  | [], _ => []
  | Layer.mk n k b v g ch ci :: rest, pathParts =>
      infoOf pathParts (Layer.mk n k b v g ch ci) ::
        ((if g then allInfos ch (pathParts ++ [n]) else []) ++ allInfos rest pathParts)

/-- walk of the inventory script, returning the pair of the smartObjects and
keyLayers lists that the Python closure appends to: for each layer the info
record is appended to smartObjects exactly when the kind is smartobject, and
to keyLayers exactly when the lowercased name contains a keyword, then the
children of a group are walked. -/
def walkPair : List Layer → List String → List LayerInfo × List LayerInfo
  | [], _ => ([], [])
  | Layer.mk n k b v g ch ci :: rest, pathParts =>
      let info := infoOf pathParts (Layer.mk n k b v g ch ci)
      let so := if k == "smartobject" then [info] else []
      let kl := if isKeyName n then [info] else []
      let below := if g then walkPair ch (pathParts ++ [n]) else ([], [])
      let after := walkPair rest pathParts
      (so ++ below.1 ++ after.1, kl ++ below.2 ++ after.2)

end Inspect

namespace Prototype

/-- iter_layers of the prototype script: depth-first preorder, each layer
before its children, recursing only into groups. -/
def preorder : List Layer → List Layer
  | [] => []
  | Layer.mk n k b v g ch ci :: rest =>
      Layer.mk n k b v g ch ci :: ((if g then preorder ch else []) ++ preorder rest)

/-- find_layer of the prototype script: the first layer of the preorder
traversal whose name equals the given string, none when there is no match. -/
def find_layer (psd : PSDImage) (exact_name : String) : Option Layer :=
  List.find? (fun l => l.name == exact_name) (preorder psd.layers)

/-- Exact name of the front design layer looked up by the prototype. -/
def DESIGN_NAME : String := "**Your Design Here [Double-Click]** (Sleeve Insert)"

/-- Exact name of the background layer looked up by the prototype. -/
def BACKGROUND_NAME : String := "Background Color [Double-Click]"

/-- Visibility toggle loop of the prototype: every traversed layer whose name
contains the marker substring is made invisible; children are reached only
through groups, as in the generator. -/
def hideDesignLayers : List Layer → List Layer
  | [] => []
  | Layer.mk n k b v g ch ci :: rest =>
      Layer.mk n k b (if strContains n "Your Design Here" then false else v) g
          (if g then hideDesignLayers ch else ch) ci ::
        hideDesignLayers rest

/-- Document with the design layers hidden. -/
def hideDesign (psd : PSDImage) : PSDImage :=
  { psd with layers := hideDesignLayers psd.layers }

/-- Flattening psd.composite of a document.  The full psd-tools blend engine
is third-party; it is modelled as plain alpha-over compositing of the
canvases of the visible top level layers onto a transparent canvas, which is
the normal blend mode flattening.  No claim inspects the resulting pixels. -/
def flatten (psd : PSDImage) : Img :=
  psd.layers.foldl
    (fun acc l => if l.visible then acc.alphaCompositeAt (to_canvas psd l) 0 0 else acc)
    (blankCanvas psd.width psd.height)

/-- paste_cover of the prototype: resize the cover to the bounding box size
and paste it at the top left corner of the bounding box with the resized
image itself as the mask. -/
def paste_cover (base cover : Img) (bbox : Nat × Nat × Nat × Nat) : Img :=
  let x1 := bbox.1
  let y1 := bbox.2.1
  let x2 := bbox.2.2.1
  let y2 := bbox.2.2.2
  let w := x2 - x1
  let h := y2 - y1
  let resized := cover.resizeTo w h
  base.pasteMaskRGBA resized x1 y1

/-- Outcome of one run of the prototype main after the PSB has been opened
and given an already loaded poster image: the output file names in write
order and the fatal error message if the run aborted. -/
def protoMain (psd : PSDImage) (poster : Img) : List String × Option String :=
  match find_layer psd DESIGN_NAME with
  | none => ([], some "Could not find FRONT smart-object design layer.")
  | some design_layer =>
    let hidden := hideDesign psd
    let no_design := flatten hidden
    let written := ["front_full_no_design.png"]
    match find_layer hidden BACKGROUND_NAME with
    | none => (written, some "Could not find background layer.")
    | some bg_layer =>
      let background := bg_layer.compositeImg
      let poster_canvas := blankCanvas no_design.width no_design.height
      let poster_canvas := paste_cover poster_canvas poster design_layer.bbox
      let base := background.alphaCompositeAt poster_canvas 0 0
      let no_design_rgb := no_design.convertRGB
      let base_rgb := base.convertRGB
      let _over := base.alphaCompositeAt no_design 0 0
      let written := written ++ ["front_proto_over.png"]
      let multiply_rgb := chopsMultiplyImg base_rgb no_design_rgb
      let _multiply := imageBlend base_rgb multiply_rgb (82 / 100)
      let written := written ++ ["front_proto_multiply.png"]
      let screen_rgb := chopsScreenImg base_rgb no_design_rgb
      let _screen := imageBlend base_rgb screen_rgb (38 / 100)
      let written := written ++ ["front_proto_screen.png"]
      (written, none)

end Prototype

/-! Concrete documents and images used to instantiate the theorems. -/

/-- Small constant opaque image used as a demo raster. -/
def demoImg : Img := { width := 4, height := 4, pix := fun _ _ => ⟨10, 20, 30, 40⟩ }

/-- Base image for the screen blend instance: constant valid pixels. -/
def c8Base : Img := { width := 3, height := 3, pix := fun _ _ => ⟨100, 150, 200, 250⟩ }

/-- Fully transparent overlay for the screen blend instance. -/
def c8Clear : Img := { width := 3, height := 3, pix := fun _ _ => ⟨70, 80, 90, 0⟩ }

/-- Base canvas for the paste instance. -/
def c5Base : Img := { width := 100, height := 100, pix := fun _ _ => ⟨1, 2, 3, 4⟩ }

/-- Poster image for the paste instance. -/
def c5Cover : Img := { width := 8, height := 8, pix := fun _ _ => ⟨200, 100, 50, 255⟩ }

/-- Design layer carrying the exact name the prototype looks up. -/
def demoDesign : Layer :=
  Layer.mk "**Your Design Here [Double-Click]** (Sleeve Insert)" "smartobject"
    (10, 10, 60, 60) true false [] demoImg

/-- Document that contains the design layer but no background layer: the
prototype aborts on the background lookup after the first file is written. -/
def demoDocNoBg : PSDImage := { width := 100, height := 100, layers := [demoDesign] }

/-- Document with no design layer at all. -/
def demoDocEmpty : PSDImage := { width := 100, height := 100, layers := [] }

/-- First layer named Target, nested inside a group. -/
def dupInner : Layer := Layer.mk "Target" "pixel" (0, 0, 2, 2) true false [] demoImg

/-- Group holding the first Target layer. -/
def dupGroup : Layer := Layer.mk "Group" "group" (0, 0, 4, 4) true true [dupInner] demoImg

/-- Second layer named Target, a root sibling after the group. -/
def dupOuter : Layer := Layer.mk "Target" "pixel" (1, 1, 3, 3) true false [] demoImg

/-- Document with two layers of the same name: preorder meets the nested one
first. -/
def docDup : PSDImage := { width := 10, height := 10, layers := [dupGroup, dupOuter] }

/-- Shadow leaf layer of the full demo document. -/
def layerFacingDown : Layer := Layer.mk "Facing Down (Alt)" "pixel" (5, 5, 95, 95) true false [] demoImg

/-- Shadow group of the full demo document. -/
def layerShadows : Layer := Layer.mk "Shadows" "group" (0, 0, 100, 100) true true [layerFacingDown] demoImg

/-- Case mockup layer of the full demo document. -/
def layerCaseMokcup : Layer := Layer.mk "Front Case Mokcup" "smartobject" (2, 2, 98, 98) true false [] demoImg

/-- Design layer of the full demo document. -/
def layerDesignFull : Layer :=
  Layer.mk "**Your Design Here [Double-Click]** (Sleeve Insert)" "smartobject" (10, 20, 70, 90) true false [] demoImg

/-- Case group of the full demo document. -/
def layerBlackCase : Layer :=
  Layer.mk "Black VHS Case" "group" (0, 0, 100, 100) true true [layerCaseMokcup, layerDesignFull] demoImg

/-- Plastic texture layer of the full demo document. -/
def layerPlastic : Layer := Layer.mk "Plastic" "pixel" (0, 0, 100, 100) true false [] demoImg

/-- Scratches texture layer of the full demo document. -/
def layerScratches : Layer :=
  Layer.mk "Scratches + Reflection [Adjust]" "pixel" (0, 0, 100, 100) true false [] demoImg

/-- Inner texture group of the full demo document. -/
def layerTexture : Layer :=
  Layer.mk "Texture" "group" (0, 0, 100, 100) true true [layerPlastic, layerScratches] demoImg

/-- Outer texture group of the full demo document. -/
def layerTextures : Layer := Layer.mk "Textures" "group" (0, 0, 100, 100) true true [layerTexture] demoImg

/-- Layer tree containing every path of the alias table LAYER_PATHS. -/
def docFullLayers : List Layer := [layerShadows, layerBlackCase, layerTextures]

/-- Document on which the build run succeeds. -/
def docFull : PSDImage := { width := 100, height := 100, layers := docFullLayers }

/-- Path and layer pairs of the depth-first traversal of the full demo
document, used to evaluate the path dictionary on it. -/
def docFullPairs : List (String × Layer) :=
  [ ("Shadows", layerShadows)
  , ("Shadows/Facing Down (Alt)", layerFacingDown)
  , ("Black VHS Case", layerBlackCase)
  , ("Black VHS Case/Front Case Mokcup", layerCaseMokcup)
  , ("Black VHS Case/**Your Design Here [Double-Click]** (Sleeve Insert)", layerDesignFull)
  , ("Textures", layerTextures)
  , ("Textures/Texture", layerTexture)
  , ("Textures/Texture/Plastic", layerPlastic)
  , ("Textures/Texture/Scratches + Reflection [Adjust]", layerScratches)
  ]

/-- Small one-layer document for the locator success instance. -/
def layerSolo : Layer := Layer.mk "Solo" "pixel" (0, 0, 4, 4) true false [] demoImg

/-- Document holding only the Solo layer. -/
def docSolo : PSDImage := { width := 4, height := 4, layers := [layerSolo] }

/-! Helper lemmas about the PIL pixel arithmetic. -/

/-- MULDIV255 of a byte value with the full mask 255 returns the value. -/
theorem muldiv255_mask_full (v : Nat) (hv : v ≤ 255) : muldiv255 v 255 = v := by
  unfold muldiv255 shiftForDiv255
  omega

/-- MULDIV255 of any value with the empty mask 0 is 0. -/
theorem muldiv255_mask_zero (v : Nat) : muldiv255 v 0 = 0 := by
  unfold muldiv255 shiftForDiv255
  omega

/-- Masked blend with mask 0 keeps the old byte value. -/
theorem maskBlend_zero (oldv newv : Nat) (h : oldv ≤ 255) : maskBlend oldv newv 0 = oldv := by
  unfold maskBlend
  rw [muldiv255_mask_zero]
  simpa using muldiv255_mask_full oldv h

/-- Alpha compositing a source pixel of alpha 0 returns the destination pixel
unchanged. -/
theorem alphaCompositePix_clear (dst src : RGBA) (h : src.a = 0) :
    alphaCompositePix dst src = dst := by
  unfold alphaCompositePix
  simp [h]

/-- Pixel level description of screen_blend, shared by the screen blend
theorems: each colour channel is the masked interpolation between the base
channel and the screened channel, and the alpha channel is the base alpha. -/
theorem screen_blend_pix (base overlay : Img) (x y : Nat) :
    (screen_blend base overlay).pix x y =
      { r := maskBlend (base.pix x y).r
               (255 - (255 - (base.pix x y).r) * (255 - (overlay.pix x y).r) / 255)
               ((overlay.pix x y).a)
      , g := maskBlend (base.pix x y).g
               (255 - (255 - (base.pix x y).g) * (255 - (overlay.pix x y).g) / 255)
               ((overlay.pix x y).a)
      , b := maskBlend (base.pix x y).b
               (255 - (255 - (base.pix x y).b) * (255 - (overlay.pix x y).b) / 255)
               ((overlay.pix x y).a)
      , a := (base.pix x y).a } := by
  simp [screen_blend, mergeRGBA, imageComposite, chopsScreenImg, Img.convertRGB, Img.getA,
    chopScreen]

/-- C3: screen_blend screens the colour channels with the exact per channel
formula 255 - (255 - a) * (255 - b) / 255, interpolates each screened channel
against the original base channel through the overlay alpha as a per pixel
mask, and returns the base alpha channel unchanged. -/
theorem c3_screen_blend_formula (base overlay : Img) (x y : Nat) :
    (screen_blend base overlay).width = base.width ∧
    (screen_blend base overlay).height = base.height ∧
    (screen_blend base overlay).pix x y =
      { r := maskBlend (base.pix x y).r
               (255 - (255 - (base.pix x y).r) * (255 - (overlay.pix x y).r) / 255)
               ((overlay.pix x y).a)
      , g := maskBlend (base.pix x y).g
               (255 - (255 - (base.pix x y).g) * (255 - (overlay.pix x y).g) / 255)
               ((overlay.pix x y).a)
      , b := maskBlend (base.pix x y).b
               (255 - (255 - (base.pix x y).b) * (255 - (overlay.pix x y).b) / 255)
               ((overlay.pix x y).a)
      , a := (base.pix x y).a } :=
  ⟨rfl, rfl, screen_blend_pix base overlay x y⟩

/-- C4: to_canvas always returns an image of the document size, transparent
outside the pasted region and alpha-composited with the local layer raster at
the bounding box origin inside it. -/
theorem c4_to_canvas_shape (psd : PSDImage) (layer : Layer) (x y : Nat) :
    (to_canvas psd layer).width = psd.width ∧
    (to_canvas psd layer).height = psd.height ∧
    (to_canvas psd layer).pix x y =
      (if layer.bbox.1 ≤ x ∧ x < layer.bbox.1 + layer.compositeImg.width ∧
          layer.bbox.2.1 ≤ y ∧ y < layer.bbox.2.1 + layer.compositeImg.height then
        alphaCompositePix transparent
          (layer.compositeImg.pix (x - layer.bbox.1) (y - layer.bbox.2.1))
      else transparent) := by
  refine ⟨rfl, rfl, ?_⟩
  simp only [to_canvas, Img.alphaCompositeAt, blankCanvas]

/-- C8: screen blending any valid base with a fully transparent overlay
returns the base unchanged in every channel of every pixel, and keeps its
dimensions. -/
theorem c8_screen_transparent_identity (base overlay : Img)
    (htrans : ∀ x y, (overlay.pix x y).a = 0)
    (hvalid : ∀ x y, (base.pix x y).valid) :
    (screen_blend base overlay).width = base.width ∧
    (screen_blend base overlay).height = base.height ∧
    ∀ x y, (screen_blend base overlay).pix x y = base.pix x y := by
  refine ⟨rfl, rfl, fun x y => ?_⟩
  rw [screen_blend_pix base overlay x y, htrans x y]
  obtain ⟨hr, hg, hb, _⟩ := hvalid x y
  rw [maskBlend_zero _ _ hr, maskBlend_zero _ _ hg, maskBlend_zero _ _ hb]

/-- C8 witness at a concrete pixel of concrete images. -/
theorem c8_screen_transparent_identity_witness :
    (screen_blend c8Base c8Clear).pix 1 2 = c8Base.pix 1 2 :=
  (c8_screen_transparent_identity c8Base c8Clear (fun _ _ => rfl)
    (fun _ _ => by simp [c8Base, RGBA.valid])).2.2 1 2

/-- C9: scaling the alpha channel by opacity 0 yields alpha 0 at every
pixel, and alpha compositing the scaled overlay onto any base leaves every
channel of every base pixel unchanged. -/
theorem c9_opacity_zero_identity (base overlay : Img) (x y : Nat) :
    ((apply_alpha_scale overlay 0).pix x y).a = 0 ∧
    (base.alphaCompositeAt (apply_alpha_scale overlay 0) 0 0).width = base.width ∧
    (base.alphaCompositeAt (apply_alpha_scale overlay 0) 0 0).height = base.height ∧
    (base.alphaCompositeAt (apply_alpha_scale overlay 0) 0 0).pix x y = base.pix x y := by
  have hzero : ∀ u v : Nat, ((apply_alpha_scale overlay 0).pix u v).a = 0 := by
    intro u v
    rw [apply_alpha_scale, if_neg (by norm_num)]
    simp only [mul_zero]
    decide
  refine ⟨hzero x y, rfl, rfl, ?_⟩
  simp only [Img.alphaCompositeAt]
  split
  · rw [alphaCompositePix_clear _ _ (hzero _ _)]
  · rfl

/-- C5: paste_cover resizes the poster to exactly the bounding box size
(x2 - x1, y2 - y1), keeps the target canvas dimensions, and inside the paste
region anchored at (x1, y1) blends every channel of the base with the resized
poster through the resized poster alpha as the paste mask, leaving all other
pixels of the base untouched. -/
theorem c5_paste_cover_placement (base cover : Img) (x1 y1 x2 y2 : Nat)
    (hx : x1 ≤ x2) (hy : y1 ≤ y2) :
    (cover.resizeTo (x2 - x1) (y2 - y1)).width = x2 - x1 ∧
    (cover.resizeTo (x2 - x1) (y2 - y1)).height = y2 - y1 ∧
    (Prototype.paste_cover base cover (x1, y1, x2, y2)).width = base.width ∧
    (Prototype.paste_cover base cover (x1, y1, x2, y2)).height = base.height ∧
    ∀ x y,
      (Prototype.paste_cover base cover (x1, y1, x2, y2)).pix x y =
        (if x < base.width ∧ y < base.height ∧
            x1 ≤ x ∧ x < x1 + (x2 - x1) ∧ y1 ≤ y ∧ y < y1 + (y2 - y1) then
          { r := maskBlend (base.pix x y).r
                   ((cover.resizeTo (x2 - x1) (y2 - y1)).pix (x - x1) (y - y1)).r
                   ((cover.resizeTo (x2 - x1) (y2 - y1)).pix (x - x1) (y - y1)).a
          , g := maskBlend (base.pix x y).g
                   ((cover.resizeTo (x2 - x1) (y2 - y1)).pix (x - x1) (y - y1)).g
                   ((cover.resizeTo (x2 - x1) (y2 - y1)).pix (x - x1) (y - y1)).a
          , b := maskBlend (base.pix x y).b
                   ((cover.resizeTo (x2 - x1) (y2 - y1)).pix (x - x1) (y - y1)).b
                   ((cover.resizeTo (x2 - x1) (y2 - y1)).pix (x - x1) (y - y1)).a
          , a := maskBlend (base.pix x y).a
                   ((cover.resizeTo (x2 - x1) (y2 - y1)).pix (x - x1) (y - y1)).a
                   ((cover.resizeTo (x2 - x1) (y2 - y1)).pix (x - x1) (y - y1)).a }
        else base.pix x y) := by
  refine ⟨rfl, rfl, rfl, rfl, fun x y => ?_⟩
  simp only [Prototype.paste_cover, Img.pasteMaskRGBA, Img.resizeTo]

/-- C5 witness: a bounding box from (10, 10) to (60, 60) produces a 50 by 50
resize pasted with its top left corner at (10, 10). -/
theorem c5_paste_cover_placement_witness :
    (c5Cover.resizeTo (60 - 10) (60 - 10)).width = 50 ∧
    (c5Cover.resizeTo (60 - 10) (60 - 10)).height = 50 ∧
    (Prototype.paste_cover c5Base c5Cover (10, 10, 60, 60)).width = 100 ∧
    (Prototype.paste_cover c5Base c5Cover (10, 10, 60, 60)).pix 0 0 = c5Base.pix 0 0 := by
  have h := c5_paste_cover_placement c5Base c5Cover 10 10 60 60 (by decide) (by decide)
  refine ⟨h.1, h.2.1, h.2.2.1, ?_⟩
  have hp := h.2.2.2.2 0 0
  rw [hp, if_neg (by decide)]

/-- The pair of lists built by walk equals filtering the depth-first info
list with the two classification predicates. -/
theorem walkPair_eq_filter (ls : List Layer) (pp : List String) :
    Inspect.walkPair ls pp =
      ((Inspect.allInfos ls pp).filter (fun i => i.kind == "smartobject"),
       (Inspect.allInfos ls pp).filter (fun i => Inspect.isKeyName i.name)) := by
  induction ls, pp using Inspect.walkPair.induct with
  | case1 pp => simp [Inspect.walkPair, Inspect.allInfos]
  | case2 n k b v g ch ci rest pp ih1 ih2 =>
    simp only [Inspect.walkPair, Inspect.allInfos, ih1, ih2, List.filter_cons,
      List.filter_append]
    by_cases hg : g = true
    · simp only [hg, if_true, Prod.mk.injEq, Inspect.infoOf, Layer.kind, Layer.name]
      constructor <;> split_ifs <;> simp
    · simp only [Bool.not_eq_true] at hg
      simp only [hg, Bool.false_eq_true, if_false, Prod.mk.injEq, Inspect.infoOf,
        Layer.kind, Layer.name]
      constructor <;> split_ifs <;> simp

/-- C6: a visited layer lands in keyLayers exactly when its lowercased name
contains one of the fixed keywords, lands in smartObjects exactly when its
kind is smartobject, the two classifications are independent memberships in
the walked info list, and the name Front Lighting Adjust is always a key
name. -/
theorem c6_inventory_classification (psd : PSDImage) (i : Inspect.LayerInfo) :
    (i ∈ (Inspect.walkPair psd.layers []).2 ↔
      i ∈ Inspect.allInfos psd.layers [] ∧ Inspect.isKeyName i.name = true) ∧
    (i ∈ (Inspect.walkPair psd.layers []).1 ↔
      i ∈ Inspect.allInfos psd.layers [] ∧ i.kind = "smartobject") ∧
    Inspect.isKeyName "Front Lighting Adjust" = true := by
  rw [walkPair_eq_filter]
  refine ⟨?_, ?_, by decide⟩
  · simp [List.mem_filter]
  · simp [List.mem_filter]

/-- A successful find? returns a matching element and splits the list at its
first match: everything before it fails the test. -/
theorem find?_first_decomp {α : Type} (p : α → Bool) (l : List α) (a : α)
    (h : l.find? p = some a) :
    p a = true ∧ ∃ s t, l = s ++ a :: t ∧ ∀ x ∈ s, p x = false := by
  induction l with
  | nil => simp [List.find?] at h
  | cons hd tl ih =>
    by_cases hp : p hd = true
    · rw [List.find?_cons_of_pos _ hp] at h
      obtain rfl : hd = a := by simpa using h
      exact ⟨hp, [], tl, rfl, by simp⟩
    · rw [List.find?_cons_of_neg _ (by simpa using hp)] at h
      obtain ⟨ha, s, t, rfl, hs⟩ := ih h
      refine ⟨ha, hd :: s, t, rfl, ?_⟩
      intro x hx
      rcases List.mem_cons.mp hx with rfl | hmem
      · simpa using hp
      · exact hs x hmem

/-- C10: find_layer returns the first layer of the depth-first preorder
traversal whose name matches exactly, returns none exactly when no traversed
layer has the name, and on success every traversed layer strictly before the
returned one has a different name. -/
theorem c10_find_layer_first (psd : PSDImage) (n : String) :
    (Prototype.find_layer psd n = none ↔
      ∀ l ∈ Prototype.preorder psd.layers, l.name ≠ n) ∧
    ∀ l, Prototype.find_layer psd n = some l →
      l.name = n ∧ ∃ s t, Prototype.preorder psd.layers = s ++ l :: t ∧
        ∀ x ∈ s, x.name ≠ n := by
  constructor
  · rw [Prototype.find_layer, List.find?_eq_none]
    simp
  · intro l h
    obtain ⟨hp, s, t, heq, hs⟩ := find?_first_decomp _ _ _ h
    refine ⟨by simpa using hp, s, t, heq, fun x hx => by simpa using hs x hx⟩

/-- C10 witness: in a document with two layers named Target, one nested in an
earlier group and one a later root sibling, find_layer returns the nested one
and everything before it in preorder has a different name. -/
theorem c10_find_layer_first_witness :
    dupInner.name = "Target" ∧
    ∃ s t, Prototype.preorder docDup.layers = s ++ dupInner :: t ∧
      ∀ x ∈ s, x.name ≠ "Target" := by
  have hfind : Prototype.find_layer docDup "Target" = some dupInner := by
    rw [Prototype.find_layer]
    have hpre : Prototype.preorder docDup.layers = [dupGroup, dupInner, dupOuter] := by
      simp [Prototype.preorder, docDup, dupGroup, dupInner, dupOuter]
    rw [hpre]
    rfl
  exact (c10_find_layer_first docDup "Target").2 dupInner hfind

/-- When every path of the table is present in the path dictionary,
find_layers succeeds. -/
theorem find_layers_total_ok (psd : PSDImage) (table : List (String × String))
    (hall : ∀ ap ∈ table, BuildTemplate.byPath psd ap.2 ≠ none) :
    ∃ r, BuildTemplate.find_layers psd table = .ok r := by
  induction table with
  | nil => exact ⟨[], rfl⟩
  | cons hd tl ih =>
    obtain ⟨al, path⟩ := hd
    cases hbp : BuildTemplate.byPath psd path with
    | none => exact absurd hbp (hall (al, path) (by simp))
    | some l =>
      obtain ⟨r2, hr2⟩ := ih (fun ap hap => hall ap (List.mem_cons_of_mem _ hap))
      exact ⟨(al, l) :: r2, by rw [BuildTemplate.find_layers, hbp, hr2]⟩

/-- On success, every alias of the table resolves through the path
dictionary, and the resolved map answers the alias lookup with that layer. -/
theorem find_layers_ok_lookup (psd : PSDImage) (table : List (String × String))
    (r : List (String × Layer)) (h : BuildTemplate.find_layers psd table = .ok r) :
    ∀ a p, List.lookup a table = some p →
      ∃ l, List.lookup a r = some l ∧ BuildTemplate.byPath psd p = some l := by
  induction table generalizing r with
  | nil => intro a p hp; simp at hp
  | cons hd tl ih =>
    obtain ⟨al, path⟩ := hd
    rw [BuildTemplate.find_layers] at h
    cases hbp : BuildTemplate.byPath psd path with
    | none => rw [hbp] at h; cases h
    | some l =>
      rw [hbp] at h
      cases hrec : BuildTemplate.find_layers psd tl with
      | error e => rw [hrec] at h; cases h
      | ok r2 =>
        rw [hrec] at h
        obtain rfl : ((al, l) :: r2 : List (String × Layer)) = r := by
          simpa using h
        intro a p hp
        simp only [List.lookup] at hp ⊢
        cases hab : (a == al) with
        | true =>
          rw [hab] at hp
          obtain rfl : path = p := by simpa using hp
          exact ⟨l, rfl, hbp⟩
        | false =>
          rw [hab] at hp
          exact ih r2 hrec a p hp

/-- On failure, the error message names a table path that is absent from the
path dictionary. -/
theorem find_layers_error_path (psd : PSDImage) (table : List (String × String))
    (e : String) (h : BuildTemplate.find_layers psd table = .error e) :
    ∃ ap, ap ∈ table ∧ BuildTemplate.byPath psd ap.2 = none ∧
      e = "Could not find required layer path: " ++ ap.2 := by
  induction table with
  | nil => rw [BuildTemplate.find_layers] at h; cases h
  | cons hd tl ih =>
    obtain ⟨al, path⟩ := hd
    rw [BuildTemplate.find_layers] at h
    cases hbp : BuildTemplate.byPath psd path with
    | none =>
      rw [hbp] at h
      obtain rfl : ("Could not find required layer path: " ++ path) = e := by
        simpa using h
      exact ⟨(al, path), by simp, hbp, rfl⟩
    | some l =>
      rw [hbp] at h
      cases hrec : BuildTemplate.find_layers psd tl with
      | error e2 =>
        rw [hrec] at h
        obtain rfl : e2 = e := by simpa using h
        obtain ⟨ap, hmem, hnone, heq⟩ := ih hrec
        exact ⟨ap, List.mem_cons_of_mem _ hmem, hnone, heq⟩
      | ok r2 =>
        rw [hrec] at h
        simp at h

/-- Every build run either carries no error or wrote no file. -/
theorem buildMain_cases (psbName : String) (psd : PSDImage) :
    (BuildTemplate.buildMain psbName psd).errorMsg = none ∨
    (BuildTemplate.buildMain psbName psd).written = [] := by
  unfold BuildTemplate.buildMain
  split
  · right; rfl
  · split
    · left; rfl
    · right; rfl

/-- Any aborted build run writes no file at all. -/
theorem buildMain_error_no_files (psbName : String) (psd : PSDImage) (e : String)
    (h : (BuildTemplate.buildMain psbName psd).errorMsg = some e) :
    (BuildTemplate.buildMain psbName psd).written = [] := by
  rcases buildMain_cases psbName psd with h0 | h0
  · rw [h0] at h; cases h
  · exact h0

/-- C2: find_layers either resolves every alias of the table through the
depth-first path dictionary, or fails with a required layer message naming an
absent path of the table; and an aborted build run writes no output file. -/
theorem c2_layer_locator (psd : PSDImage) (table : List (String × String)) :
    ((∀ ap ∈ table, BuildTemplate.byPath psd ap.2 ≠ none) →
      ∃ r, BuildTemplate.find_layers psd table = .ok r) ∧
    (∀ r, BuildTemplate.find_layers psd table = .ok r →
      ∀ a p, List.lookup a table = some p →
        ∃ l, List.lookup a r = some l ∧ BuildTemplate.byPath psd p = some l) ∧
    (∀ e, BuildTemplate.find_layers psd table = .error e →
      ∃ ap, ap ∈ table ∧ BuildTemplate.byPath psd ap.2 = none ∧
        e = "Could not find required layer path: " ++ ap.2) ∧
    ∀ psbName e, (BuildTemplate.buildMain psbName psd).errorMsg = some e →
      (BuildTemplate.buildMain psbName psd).written = [] :=
  ⟨find_layers_total_ok psd table,
   fun r h => find_layers_ok_lookup psd table r h,
   fun e h => find_layers_error_path psd table e h,
   fun psbName e h => buildMain_error_no_files psbName psd e h⟩

/-- C1 amended: a missing design layer aborts the prototype before any file
is written, while a missing background layer aborts it with a descriptive
error only after front_full_no_design.png has been written. -/
theorem c1_prototype_missing_layer_behaviour (psd : PSDImage) (poster : Img) :
    (Prototype.find_layer psd Prototype.DESIGN_NAME = none →
      Prototype.protoMain psd poster =
        ([], some "Could not find FRONT smart-object design layer.")) ∧
    (∀ l, Prototype.find_layer psd Prototype.DESIGN_NAME = some l →
      Prototype.find_layer (Prototype.hideDesign psd) Prototype.BACKGROUND_NAME = none →
      Prototype.protoMain psd poster =
        (["front_full_no_design.png"], some "Could not find background layer.")) := by
  constructor
  · intro h
    simp only [Prototype.protoMain, h]
  · intro l h hbg
    simp only [Prototype.protoMain, h, hbg]

/-- C1 counterexample: on a document holding the design layer but no
background layer the prototype writes front_full_no_design.png and only then
aborts, so the abort does not come before every output file. -/
theorem c1_prototype_counterexample :
    Prototype.find_layer (Prototype.hideDesign demoDocNoBg) Prototype.BACKGROUND_NAME = none ∧
    Prototype.protoMain demoDocNoBg demoImg =
      (["front_full_no_design.png"], some "Could not find background layer.") ∧
    (Prototype.protoMain demoDocNoBg demoImg).1 ≠ [] := by
  have hdes : Prototype.find_layer demoDocNoBg Prototype.DESIGN_NAME = some demoDesign := by
    simp [Prototype.find_layer, Prototype.preorder, demoDocNoBg, demoDesign,
      Prototype.DESIGN_NAME, Layer.name, List.find?]
  have hbg : Prototype.find_layer (Prototype.hideDesign demoDocNoBg)
      Prototype.BACKGROUND_NAME = none := by
    simp [Prototype.find_layer, Prototype.preorder, Prototype.hideDesign,
      Prototype.hideDesignLayers, demoDocNoBg, demoDesign, Prototype.BACKGROUND_NAME,
      Layer.name, List.find?, strContains, hasSubChars, startsWithChars]
  have hmain : Prototype.protoMain demoDocNoBg demoImg =
      (["front_full_no_design.png"], some "Could not find background layer.") := by
    simp only [Prototype.protoMain, hdes, hbg]
  exact ⟨hbg, hmain, by rw [hmain]; simp⟩

/-- C1 witness for the amended statement at two concrete documents: one with
no design layer, one with a design layer but no background layer. -/
theorem c1_prototype_missing_layer_behaviour_witness :
    Prototype.protoMain demoDocEmpty demoImg =
      ([], some "Could not find FRONT smart-object design layer.") ∧
    Prototype.protoMain demoDocNoBg demoImg =
      (["front_full_no_design.png"], some "Could not find background layer.") := by
  constructor
  · exact (c1_prototype_missing_layer_behaviour demoDocEmpty demoImg).1
      (by simp [Prototype.find_layer, Prototype.preorder, demoDocEmpty])
  · exact (c1_prototype_missing_layer_behaviour demoDocNoBg demoImg).2 demoDesign
      (by simp [Prototype.find_layer, Prototype.preorder, demoDocNoBg, demoDesign,
            Prototype.DESIGN_NAME, Layer.name, List.find?])
      (by simp [Prototype.find_layer, Prototype.preorder, Prototype.hideDesign,
            Prototype.hideDesignLayers, demoDocNoBg, demoDesign, Prototype.BACKGROUND_NAME,
            Layer.name, List.find?, strContains, hasSubChars, startsWithChars])

/-- Depth-first traversal of the full demo document, evaluated. -/
theorem iter_layers_docFull : BuildTemplate.iter_layers docFullLayers "" = docFullPairs := by
  simp [BuildTemplate.iter_layers, docFullLayers, docFullPairs, layerShadows, layerFacingDown,
    layerBlackCase, layerCaseMokcup, layerDesignFull, layerTextures, layerTexture, layerPlastic,
    layerScratches]

/-- Path dictionary of the full demo document as a fold over the evaluated
traversal. -/
theorem byPath_docFull (p : String) :
    BuildTemplate.byPath docFull p =
      docFullPairs.foldl (fun acc pl => if pl.1 = p then some pl.2 else acc) none := by
  unfold BuildTemplate.byPath
  rw [show docFull.layers = docFullLayers from rfl, iter_layers_docFull]

/-- The design path of the full demo document resolves to its design layer. -/
theorem byPath_docFull_design :
    BuildTemplate.byPath docFull
      "Black VHS Case/**Your Design Here [Double-Click]** (Sleeve Insert)" =
      some layerDesignFull := by
  rw [byPath_docFull]; rfl

/-- Alias resolution on the full demo document, evaluated. -/
theorem find_layers_docFull :
    BuildTemplate.find_layers docFull BuildTemplate.LAYER_PATHS =
      .ok [("shadow", layerFacingDown), ("case", layerCaseMokcup), ("design", layerDesignFull),
           ("plastic", layerPlastic), ("scratches", layerScratches)] := by
  have h1 : BuildTemplate.byPath docFull "Shadows/Facing Down (Alt)" = some layerFacingDown := by
    rw [byPath_docFull]; rfl
  have h2 : BuildTemplate.byPath docFull "Black VHS Case/Front Case Mokcup" =
      some layerCaseMokcup := by
    rw [byPath_docFull]; rfl
  have h4 : BuildTemplate.byPath docFull "Textures/Texture/Plastic" = some layerPlastic := by
    rw [byPath_docFull]; rfl
  have h5 : BuildTemplate.byPath docFull "Textures/Texture/Scratches + Reflection [Adjust]" =
      some layerScratches := by
    rw [byPath_docFull]; rfl
  show BuildTemplate.find_layers docFull
      (("shadow", "Shadows/Facing Down (Alt)") :: ("case", "Black VHS Case/Front Case Mokcup") ::
       ("design", "Black VHS Case/**Your Design Here [Double-Click]** (Sleeve Insert)") ::
       ("plastic", "Textures/Texture/Plastic") ::
       ("scratches", "Textures/Texture/Scratches + Reflection [Adjust]") :: []) = _
  rw [BuildTemplate.find_layers, h1, BuildTemplate.find_layers, h2, BuildTemplate.find_layers,
    byPath_docFull_design, BuildTemplate.find_layers, h4, BuildTemplate.find_layers, h5,
    BuildTemplate.find_layers]

/-- The five fixed dictionary accesses determine the design component. -/
theorem lookupFive_design (r : List (String × Layer)) (s1 s2 s3 s4 s5 : Layer)
    (h : BuildTemplate.lookupFive r = some (s1, s2, s3, s4, s5)) :
    List.lookup "design" r = some s3 := by
  unfold BuildTemplate.lookupFive at h
  cases h1 : List.lookup "shadow" r with
  | none => rw [h1] at h; cases h
  | some l1 =>
    rw [h1] at h
    cases h2 : List.lookup "case" r with
    | none => rw [h2] at h; cases h
    | some l2 =>
      rw [h2] at h
      cases h3 : List.lookup "design" r with
      | none => rw [h3] at h; cases h
      | some l3 =>
        rw [h3] at h
        cases h4 : List.lookup "plastic" r with
        | none => rw [h4] at h; cases h
        | some l4 =>
          rw [h4] at h
          cases h5 : List.lookup "scratches" r with
          | none => rw [h5] at h; cases h
          | some l5 =>
            rw [h5] at h
            obtain ⟨rfl, rfl, rfl, rfl, rfl⟩ :
                l1 = s1 ∧ l2 = s2 ∧ l3 = s3 ∧ l4 = s4 ∧ l5 = s5 := by
              simpa using h
            rfl

/-- Every build run either writes no metadata, or its metadata poster
rectangle is the converted bounding box of the design component of the five
resolved dictionary accesses. -/
theorem buildMain_metadata_cases (psbName : String) (psd : PSDImage) :
    (BuildTemplate.buildMain psbName psd).metadata = none ∨
    ∃ r s1 s2 s3 s4 s5,
      BuildTemplate.find_layers psd BuildTemplate.LAYER_PATHS = .ok r ∧
      BuildTemplate.lookupFive r = some (s1, s2, s3, s4, s5) ∧
      (BuildTemplate.buildMain psbName psd).metadata.map BuildTemplate.Metadata.poster =
        some { left := s3.bbox.1, top := s3.bbox.2.1,
               width := s3.bbox.2.2.1 - s3.bbox.1, height := s3.bbox.2.2.2 - s3.bbox.2.1 } := by
  unfold BuildTemplate.buildMain
  split
  · left; rfl
  · rename_i resolved hf
    split
    · rename_i shadowL caseL designL plasticL scratchesL hl
      right
      exact ⟨resolved, shadowL, caseL, designL, plasticL, scratchesL, hf, hl, rfl⟩
    · left; rfl

/-- C7: whenever the build run writes metadata, its poster rectangle is the
bounding box of the layer resolved at the design path, converted to origin
plus size form: left x1, top y1, width x2 - x1, height y2 - y1. -/
theorem c7_metadata_poster_rect (psbName : String) (psd : PSDImage)
    (h : (BuildTemplate.buildMain psbName psd).metadata.isSome = true) :
    ∃ l, BuildTemplate.byPath psd
        "Black VHS Case/**Your Design Here [Double-Click]** (Sleeve Insert)" = some l ∧
      (BuildTemplate.buildMain psbName psd).metadata.map BuildTemplate.Metadata.poster =
        some { left := l.bbox.1, top := l.bbox.2.1,
               width := l.bbox.2.2.1 - l.bbox.1, height := l.bbox.2.2.2 - l.bbox.2.1 } := by
  rcases buildMain_metadata_cases psbName psd with h0 | ⟨r, s1, s2, s3, s4, s5, hf, hl, hm⟩
  · rw [h0] at h; cases h
  · have hlook := lookupFive_design r s1 s2 s3 s4 s5 hl
    obtain ⟨l, hlr, hbp⟩ := find_layers_ok_lookup psd BuildTemplate.LAYER_PATHS r hf "design"
      "Black VHS Case/**Your Design Here [Double-Click]** (Sleeve Insert)" (by decide)
    rw [hlook] at hlr
    have hinj := Option.some.inj hlr
    subst hinj
    exact ⟨_, hbp, hm⟩

/-- A successful resolution with all five accesses present yields metadata. -/
theorem buildMain_metadata_some (psbName : String) (psd : PSDImage)
    (r : List (String × Layer)) (s1 s2 s3 s4 s5 : Layer)
    (hf : BuildTemplate.find_layers psd BuildTemplate.LAYER_PATHS = .ok r)
    (hl : BuildTemplate.lookupFive r = some (s1, s2, s3, s4, s5)) :
    (BuildTemplate.buildMain psbName psd).metadata.isSome = true := by
  unfold BuildTemplate.buildMain
  split
  · rename_i e heq
    rw [hf] at heq
    cases heq
  · rename_i resolved heq
    rw [hf] at heq
    obtain rfl : r = resolved := Except.ok.inj heq
    split
    · rfl
    · rename_i hnone
      rw [hl] at hnone
      cases hnone

/-- C7 witness: on the full demo document the poster rectangle equals the
design bounding box (10, 20, 70, 90) converted to origin plus size form. -/
theorem c7_metadata_poster_rect_witness :
    ∃ l, BuildTemplate.byPath docFull
        "Black VHS Case/**Your Design Here [Double-Click]** (Sleeve Insert)" = some l ∧
      (BuildTemplate.buildMain "demo.psb" docFull).metadata.map BuildTemplate.Metadata.poster =
        some { left := l.bbox.1, top := l.bbox.2.1,
               width := l.bbox.2.2.1 - l.bbox.1, height := l.bbox.2.2.2 - l.bbox.2.1 } :=
  c7_metadata_poster_rect "demo.psb" docFull
    (buildMain_metadata_some "demo.psb" docFull
      [("shadow", layerFacingDown), ("case", layerCaseMokcup), ("design", layerDesignFull),
       ("plastic", layerPlastic), ("scratches", layerScratches)]
      layerFacingDown layerCaseMokcup layerDesignFull layerPlastic layerScratches
      find_layers_docFull (by rfl))

/-- C2 witness: a one-layer document resolves a matching table; the empty
document fails on the first alias of LAYER_PATHS with a message naming its
path, and that aborted build run writes nothing. -/
theorem c2_layer_locator_witness :
    (∃ r, BuildTemplate.find_layers docSolo [("solo", "Solo")] = .ok r) ∧
    (∃ ap, ap ∈ BuildTemplate.LAYER_PATHS ∧ BuildTemplate.byPath demoDocEmpty ap.2 = none ∧
      "Could not find required layer path: Shadows/Facing Down (Alt)" =
        "Could not find required layer path: " ++ ap.2) ∧
    (BuildTemplate.buildMain "demo.psb" demoDocEmpty).written = [] := by
  have herr : BuildTemplate.find_layers demoDocEmpty BuildTemplate.LAYER_PATHS =
      .error "Could not find required layer path: Shadows/Facing Down (Alt)" := by
    simp [BuildTemplate.find_layers, BuildTemplate.LAYER_PATHS, BuildTemplate.byPath,
      BuildTemplate.iter_layers, demoDocEmpty]
  refine ⟨?_, ?_, ?_⟩
  · exact (c2_layer_locator docSolo [("solo", "Solo")]).1
      (by intro ap hap
          fin_cases hap
          simp [BuildTemplate.byPath, BuildTemplate.iter_layers, docSolo, layerSolo, Layer.name])
  · exact (c2_layer_locator demoDocEmpty BuildTemplate.LAYER_PATHS).2.2.1
      "Could not find required layer path: Shadows/Facing Down (Alt)" herr
  · exact (c2_layer_locator demoDocEmpty BuildTemplate.LAYER_PATHS).2.2.2 "demo.psb"
      "Could not find required layer path: Shadows/Facing Down (Alt)"
      (by unfold BuildTemplate.buildMain
          rw [herr])
